import Mathlib

/-!
Shallow embedding of the security-baseline reconciliation tool
(`please.py` and `modules/aws_module.py`) and proofs of the spec's
claims about it.

Modelling conventions:
* Python exceptions raised by provider (boto3) calls are modelled by the
  `PyErr` type; a provider response is an `Except PyErr α`.
* Each Python function that catches its exceptions is embedded as a total
  Lean function; a Python function that can let an exception escape
  returns a `PyOutcome`.
* Writes to the provider are recorded both as a state update (on
  `BucketState` or `ContactState`) and as an entry in an explicit trace
  of issued calls (`S3Call`, `ContactWriteCall`), so that theorems can
  speak about which calls an operation issues and in which order.
-/

/-- Exceptions a provider (boto3) call can raise: a botocore `ClientError`
carrying an error code, or any other Python exception carrying a message. -/
inductive PyErr where
  | clientError (code : String)
  | otherExc (msg : String)
  deriving DecidableEq, Repr

/-- Message used when a caught exception is interpolated into an error
string: `ClientError` handlers interpolate the error code, generic
handlers interpolate `str(e)`. -/
def PyErr.msg : PyErr → String
  | PyErr.clientError c => c
  | PyErr.otherExc m => m

/-- Outcome of calling a Python function: either it returns a value or an
exception escapes it uncaught. -/
inductive PyOutcome (α : Type) where
  | returned (a : α)
  | uncaught (exc : String)
  deriving DecidableEq, Repr

/-- Python `str.startswith`, rendered on the underlying character lists so
that it reduces definitionally. -/
def strStartsWith (s pre : String) : Bool := pre.data.isPrefixOf s.data

/-- Python `str.endswith`, rendered on the underlying character lists. -/
def strEndsWith (s suf : String) : Bool := suf.data.isSuffixOf s.data

/-- An AWS Organizations account record as consumed by the tool
(fields `Id`, `Name`, `Email`, `Status` of the provider response). -/
structure Account where
  id : String
  name : String
  email : String
  status : String
  deriving DecidableEq, Repr

/-- The conventional `{prefix}-{accountId}-{region}` name
(`please.py` line 226 and `aws_module.py` line 408). -/
def conventionalName (pfx acct region : String) : String :=
  pfx ++ "-" ++ acct ++ "-" ++ region

/-- The SQS queue ARN built by `set_s3_bucket_notifications`
(`aws_module.py` line 409). -/
def sqsQueueArn (region acct qname : String) : String :=
  "arn:aws:sqs:" ++ region ++ ":" ++ acct ++ ":" ++ qname

/-- A single S3 notification filter rule (`FilterRules` entry). -/
structure FilterRule where
  ruleName : String
  ruleValue : String
  deriving DecidableEq, Repr

/-- One `QueueConfigurations` entry of an S3 notification configuration. -/
structure QueueConfiguration where
  arn : String
  events : List String
  filterRules : List FilterRule
  deriving DecidableEq, Repr

/-- An S3 bucket notification configuration as returned by
`get_bucket_notification_configuration`: topic and lambda entries are kept
abstract (only their presence matters to the tool), queue entries are kept
in full.  A key absent from the provider response is the empty list. -/
structure NotificationConfiguration where
  topicConfigurations : List String
  queueConfigurations : List QueueConfiguration
  lambdaFunctionConfigurations : List String
  deriving DecidableEq, Repr

/-- The `LoggingEnabled` payload written by `set_s3_access_logging`
(`aws_module.py` lines 322-335). -/
structure LoggingEnabledCfg where
  targetBucket : String
  targetPfx : String
  partitionDateSource : String
  deriving DecidableEq, Repr

/-- A provider call on one S3 bucket, recorded in operation traces. -/
inductive S3Call where
  | getBucketLocation (bucket : String)
  | getBucketLogging (bucket : String)
  | putBucketLogging (bucket : String) (cfg : LoggingEnabledCfg)
  | getBucketNotification (bucket : String)
  | putBucketNotification (bucket : String) (cfg : NotificationConfiguration)
  deriving DecidableEq, Repr

/-- Whether a recorded call reads a bucket's access-logging configuration. -/
def S3Call.isLoggingRead : S3Call → Bool
  | S3Call.getBucketLogging _ => true
  | _ => false

/-- Whether a recorded call writes a bucket's access-logging configuration. -/
def S3Call.isLoggingWrite : S3Call → Bool
  | S3Call.putBucketLogging _ _ => true
  | _ => false

/-- Whether a recorded call writes a bucket's notification configuration. -/
def S3Call.isNotificationWrite : S3Call → Bool
  | S3Call.putBucketNotification _ _ => true
  | _ => false

deriving instance DecidableEq for Except

/-- The provider-side state and responses for one S3 bucket:
`loc` is the `get_bucket_location` response (`Except.ok none` is the
"no location constraint" null sentinel), `logging` the
`get_bucket_logging` response (`some target` when `LoggingEnabled` is
present with that target bucket, `none` when absent), `notif` the
`get_bucket_notification_configuration` response, and the two `put`
fields say whether the corresponding write call succeeds or raises. -/
structure BucketState where
  loc : Except PyErr (Option String)
  logging : Except PyErr (Option String)
  notif : Except PyErr NotificationConfiguration
  putLoggingResp : Except PyErr Unit
  putNotifResp : Except PyErr Unit
  deriving DecidableEq, Repr

/-- Embedding of `get_s3_bucket_region` (`aws_module.py` lines 168-196):
a null location constraint is normalized to `us-east-1`, a present one is
returned unchanged, and a caught exception yields an `Error: ...` string.
The single `get_bucket_location` call it issues is recorded by callers. -/
def get_s3_bucket_region (s : BucketState) : String :=
  match s.loc with
  | Except.ok none => "us-east-1"
  | Except.ok (some l) => l
  | Except.error e => "Error: " ++ e.msg

/-- Embedding of `get_s3_access_logging` (`aws_module.py` lines 258-297):
reads the bucket location, then the logging configuration, and renders the
result as the source's message strings; all exceptions are caught. -/
def get_s3_access_logging (bucket : String) (s : BucketState) :
    String × List S3Call :=
  match s.loc with
  | Except.error e => ("Error: " ++ e.msg, [S3Call.getBucketLocation bucket])
  | Except.ok _ =>
    match s.logging with
    | Except.ok (some tgt) =>
      ("Access logging configured. Destination bucket: " ++ tgt,
       [S3Call.getBucketLocation bucket, S3Call.getBucketLogging bucket])
    | Except.ok none =>
      ("Access Logging Not Configured",
       [S3Call.getBucketLocation bucket, S3Call.getBucketLogging bucket])
    | Except.error e =>
      ("Error: " ++ e.msg,
       [S3Call.getBucketLocation bucket, S3Call.getBucketLogging bucket])

/-- Embedding of `set_s3_access_logging` (`aws_module.py` lines 299-344):
re-resolves the bucket region, bails out if that resolution failed, and
otherwise issues `put_bucket_logging` with the fixed payload: the given
target bucket, an empty `TargetPrefix`, and an `EventTime` partitioned
object-key format.  Returns the result message, the updated bucket state
and the trace of issued calls. -/
def set_s3_access_logging (bucket accessLoggingBucket : String)
    (s : BucketState) : String × BucketState × List S3Call :=
  let region := get_s3_bucket_region s
  if strStartsWith region "Error" then
    ("Error: Unable to determine region for bucket " ++ bucket ++ ". " ++ region,
     s, [S3Call.getBucketLocation bucket])
  else
    let cfg : LoggingEnabledCfg :=
      { targetBucket := accessLoggingBucket
        targetPfx := ""
        partitionDateSource := "EventTime" }
    match s.putLoggingResp with
    | Except.ok _ =>
      ("Access logging configured for bucket '" ++ bucket ++
         "'. Logs will be stored in '" ++ accessLoggingBucket ++ "'.",
       { s with logging := Except.ok (some accessLoggingBucket) },
       [S3Call.getBucketLocation bucket, S3Call.putBucketLogging bucket cfg])
    | Except.error e =>
      ("Error: " ++ e.msg, s,
       [S3Call.getBucketLocation bucket, S3Call.putBucketLogging bucket cfg])

/-- The per-bucket body of the access-logging reconciliation loop
(`please.py` lines 219-257): resolve the bucket's own region, build the
conventional logging-target name from it, skip the bucket when it is the
configured control-tower log bucket or its own logging target, otherwise
read the logging configuration and remediate when it is not configured. -/
def access_logging_bucket_step (pfx ctBucket acct bucket : String)
    (s : BucketState) : BucketState × List S3Call :=
  let bucketRegion := get_s3_bucket_region s
  let accessLoggingBucketName := conventionalName pfx acct bucketRegion
  if bucket = ctBucket then
    (s, [S3Call.getBucketLocation bucket])
  else if bucket = accessLoggingBucketName then
    (s, [S3Call.getBucketLocation bucket])
  else
    let gl := get_s3_access_logging bucket s
    if gl.fst = "Access Logging Not Configured" then
      let sr := set_s3_access_logging bucket accessLoggingBucketName s
      (sr.snd.fst, S3Call.getBucketLocation bucket :: (gl.snd ++ sr.snd.snd))
    else
      (s, S3Call.getBucketLocation bucket :: gl.snd)

/-- Embedding of `check_s3_bucket` (`aws_module.py` lines 225-256): the
`head_bucket` response is the argument; the function returns the boolean
the source returns together with which log branch it takes (a 404 is
logged at debug level, every other client error at error level). -/
inductive CheckLogKind where
  | existsDebug
  | notExistDebug
  | clientErrorLog
  | unexpectedLog
  deriving DecidableEq, Repr

/-- Embedding of `check_s3_bucket` (`aws_module.py` lines 225-256). -/
def check_s3_bucket (headResp : Except PyErr Unit) : Bool × CheckLogKind :=
  match headResp with
  | Except.ok _ => (true, CheckLogKind.existsDebug)
  | Except.error (PyErr.clientError c) =>
    if c = "404" then (false, CheckLogKind.notExistDebug)
    else (false, CheckLogKind.clientErrorLog)
  | Except.error (PyErr.otherExc _) => (false, CheckLogKind.unexpectedLog)

/-- Python truthiness of the three subscription lists: the source's
`if notification_config.get(...) or ... or ...` test
(`aws_module.py` lines 366-368). -/
def notifConfigured (c : NotificationConfiguration) : Bool :=
  !c.topicConfigurations.isEmpty || !c.queueConfigurations.isEmpty ||
    !c.lambdaFunctionConfigurations.isEmpty

/-- The notification configuration written by `set_s3_bucket_notifications`
(`aws_module.py` lines 412-433): a single queue subscription to the
conventional per-account/per-region queue, for the two event kinds
`s3:ReducedRedundancyLostObject` and
`s3:Replication:OperationFailedReplication`, with empty-valued
"prefix" and "suffix" filter rules. -/
def writtenNotificationCfg (pfx acct region : String) :
    NotificationConfiguration :=
  { topicConfigurations := []
    queueConfigurations :=
      [{ arn := sqsQueueArn region acct (conventionalName pfx acct region)
         events := ["s3:ReducedRedundancyLostObject",
                    "s3:Replication:OperationFailedReplication"]
         filterRules := [{ ruleName := "prefix", ruleValue := "" },
                         { ruleName := "suffix", ruleValue := "" }] }]
    lambdaFunctionConfigurations := [] }

/-- Embedding of `set_s3_bucket_notifications` (`aws_module.py` lines
385-442): resolve the bucket's region, bail out if resolution failed,
otherwise issue `put_bucket_notification_configuration` with the payload
of `writtenNotificationCfg`.  Returns the result message, the updated
bucket state and the trace of issued calls. -/
def set_s3_bucket_notifications (pfx acct bucket : String)
    (s : BucketState) : String × BucketState × List S3Call :=
  let bucketRegion := get_s3_bucket_region s
  if strStartsWith bucketRegion "Error" then
    ("Error: Unable to determine region for bucket " ++ bucket ++ ". " ++
       bucketRegion,
     s, [S3Call.getBucketLocation bucket])
  else
    let queueName := conventionalName pfx acct bucketRegion
    let queueArn := sqsQueueArn bucketRegion acct queueName
    let cfg := writtenNotificationCfg pfx acct bucketRegion
    match s.putNotifResp with
    | Except.ok _ =>
      ("Notification policy configured for bucket '" ++ bucket ++
         "'. Target queue ARN: " ++ queueArn ++ ".",
       { s with notif := Except.ok cfg },
       [S3Call.getBucketLocation bucket,
        S3Call.putBucketNotification bucket cfg])
    | Except.error e =>
      ("Error: " ++ e.msg, s,
       [S3Call.getBucketLocation bucket,
        S3Call.putBucketNotification bucket cfg])

/-- Embedding of `get_s3_bucket_notifications` (`aws_module.py` lines
346-383): read the notification configuration; if any of the topic, queue
or lambda subscription lists is non-empty the bucket is classified as
configured and nothing is written; otherwise remediation is triggered via
`set_s3_bucket_notifications`.  Returns the result message, the updated
bucket state and the trace of issued calls. -/
def get_s3_bucket_notifications (pfx acct bucket : String)
    (s : BucketState) : String × BucketState × List S3Call :=
  match s.notif with
  | Except.error e =>
    ("Error: " ++ e.msg, s, [S3Call.getBucketNotification bucket])
  | Except.ok c =>
    if notifConfigured c then
      ("Notifications enabled", s, [S3Call.getBucketNotification bucket])
    else
      let sr := set_s3_bucket_notifications pfx acct bucket s
      ("Notifications Not Enabled", sr.snd.fst,
       S3Call.getBucketNotification bucket :: sr.snd.snd)

/-- An alternate-contact record (`Name`, `EmailAddress`, `PhoneNumber`,
`Title`). -/
structure ContactRecord where
  contactName : String
  emailAddress : String
  phoneNumber : String
  title : String
  deriving DecidableEq, Repr

/-- Provider response to one `get_alternate_contact` call: a record, the
`ResourceNotFoundException` raised when the contact is not set, or any
other raised exception. -/
inductive ContactReadResp where
  | found (c : ContactRecord)
  | resourceNotFound
  | raised (e : PyErr)
  deriving DecidableEq, Repr

/-- Provider behavior for one account's contact reads: whether session and
client construction succeed (with the raised message otherwise), and the
response to the read of each contact type. -/
structure AccountContactsClient where
  sessionErr : Option String
  readBilling : ContactReadResp
  readOperations : ContactReadResp
  readSecurity : ContactReadResp
  deriving DecidableEq, Repr

/-- Result of `get_alternate_contacts`: either the three optional contact
records, or the error dictionary's `Error` value. -/
inductive GetContactsResult where
  | contacts (billing operations security : Option ContactRecord)
  | err (label : String)
  deriving DecidableEq, Repr

/-- The inner `fetch_contact` helper of `get_alternate_contacts`
(`aws_module.py` lines 75-80): a `ResourceNotFoundException` is caught and
mapped to `None`; any other exception escapes to the outer handlers. -/
def fetch_contact : ContactReadResp → Except PyErr (Option ContactRecord)
  | ContactReadResp.found c => Except.ok (some c)
  | ContactReadResp.resourceNotFound => Except.ok none
  | ContactReadResp.raised e => Except.error e

/-- The `Error` label produced by the outer handlers of
`get_alternate_contacts` (`aws_module.py` lines 92-102): an
`AccessDeniedException` client error becomes `AccessDenied`, any other
client error its code, any other exception its message. -/
def contactsErrLabel : PyErr → String
  | PyErr.clientError c =>
    if c = "AccessDeniedException" then "AccessDenied" else c
  | PyErr.otherExc m => m

/-- Embedding of `get_alternate_contacts` (`aws_module.py` lines 58-102):
the three contact types are read in order billing, operations, security;
a not-found response is mapped to an absent record; any other exception is
caught by the outer handlers and turned into an error result. -/
def get_alternate_contacts (p : AccountContactsClient) : GetContactsResult :=
  match p.sessionErr with
  | some m => GetContactsResult.err m
  | none =>
    match fetch_contact p.readBilling with
    | Except.error e => GetContactsResult.err (contactsErrLabel e)
    | Except.ok b =>
      match fetch_contact p.readOperations with
      | Except.error e => GetContactsResult.err (contactsErrLabel e)
      | Except.ok o =>
        match fetch_contact p.readSecurity with
        | Except.error e => GetContactsResult.err (contactsErrLabel e)
        | Except.ok sec => GetContactsResult.contacts b o sec

/-- Provider response to one `put_alternate_contact` call. -/
inductive WriteResp where
  | succeeded
  | raised (e : PyErr)
  deriving DecidableEq, Repr

/-- Provider behavior for one account's contact writes. -/
structure AccountContactsWriteClient where
  sessionErr : Option String
  writeBilling : WriteResp
  writeOperations : WriteResp
  writeSecurity : WriteResp
  deriving DecidableEq, Repr

/-- The contact payloads taken from the configuration file by
`set_alternate_contacts` (`aws_module.py` lines 132-157). -/
structure AlternateContactsConfig where
  billingContact : ContactRecord
  operationsContact : ContactRecord
  securityContact : ContactRecord
  deriving DecidableEq, Repr

/-- The provider-side alternate-contact record set of one account. -/
structure ContactState where
  billing : Option ContactRecord
  operations : Option ContactRecord
  security : Option ContactRecord
  deriving DecidableEq, Repr

/-- A `put_alternate_contact` call recorded in an operation trace. -/
inductive ContactWriteCall where
  | putBilling (c : ContactRecord)
  | putOperations (c : ContactRecord)
  | putSecurity (c : ContactRecord)
  deriving DecidableEq, Repr

/-- Embedding of `set_alternate_contacts` (`aws_module.py` lines 104-166):
writes the billing, operations and security contacts unconditionally in
that order; the first raised exception is caught by the outer handlers and
the function returns `False`, leaving the writes already applied in place.
Returns the boolean result, the updated contact state and the trace of
issued `put_alternate_contact` calls. -/
def set_alternate_contacts (cfg : AlternateContactsConfig)
    (p : AccountContactsWriteClient) (s : ContactState) :
    Bool × ContactState × List ContactWriteCall :=
  match p.sessionErr with
  | some _ => (false, s, [])
  | none =>
    match p.writeBilling with
    | WriteResp.raised _ =>
      (false, s, [ContactWriteCall.putBilling cfg.billingContact])
    | WriteResp.succeeded =>
      let s1 := { s with billing := some cfg.billingContact }
      match p.writeOperations with
      | WriteResp.raised _ =>
        (false, s1, [ContactWriteCall.putBilling cfg.billingContact,
                     ContactWriteCall.putOperations cfg.operationsContact])
      | WriteResp.succeeded =>
        let s2 := { s1 with operations := some cfg.operationsContact }
        match p.writeSecurity with
        | WriteResp.raised _ =>
          (false, s2, [ContactWriteCall.putBilling cfg.billingContact,
                       ContactWriteCall.putOperations cfg.operationsContact,
                       ContactWriteCall.putSecurity cfg.securityContact])
        | WriteResp.succeeded =>
          (true, { s2 with security := some cfg.securityContact },
           [ContactWriteCall.putBilling cfg.billingContact,
            ContactWriteCall.putOperations cfg.operationsContact,
            ContactWriteCall.putSecurity cfg.securityContact])

/-- Provider behavior for the organization listing made by
`list_active_accounts`: whether `boto3.Session(...)` and
`session.client("organizations")` construction succeeds, and the
pagination outcome — either the pages of account records or a raised
exception. -/
structure OrgProvider where
  sessionAndClientOk : Bool
  pages : Except PyErr (List (List Account))
  deriving Repr

/-- Embedding of `list_active_accounts` (`aws_module.py` lines 27-56).
When pagination succeeds the pages are concatenated in provider order and
filtered to accounts whose `Status` equals `ACTIVE`; a pagination
exception is caught (by either handler) and yields the empty list.  When
session or client construction itself raises, however, the first except
clause evaluates `client.exceptions.AWSOrganizationsNotInUseException`
with the local variable `client` still unbound, which raises an
`UnboundLocalError` that cancels the handler search and escapes the
function uncaught (Python exception-handling semantics). -/
def list_active_accounts (p : OrgProvider) : PyOutcome (List Account) :=
  if p.sessionAndClientOk then
    match p.pages with
    | Except.ok pgs =>
      PyOutcome.returned ((pgs.flatten).filter (fun a => a.status == "ACTIVE"))
    | Except.error _ => PyOutcome.returned []
  else
    PyOutcome.uncaught "UnboundLocalError"

/-- Provider behavior for one account's S3 surface: the `list_buckets`
response and the per-bucket state used by the bucket-level operations. -/
structure AccountS3 where
  listBucketsResp : Except PyErr (List String)
  bucketStates : String → BucketState

/-- Embedding of `get_s3_bucket_names` (`aws_module.py` lines 198-223):
any exception is caught and yields the empty list. -/
def get_s3_bucket_names (w : AccountS3) : List String :=
  match w.listBucketsResp with
  | Except.ok names => names
  | Except.error _ => []

/-- The bucket loop of `get_access_logging_for_all_buckets`
(`please.py` lines 219-257) over one account's bucket names, threading
the per-bucket provider state and accumulating the trace of issued
calls. -/
def run_access_logging_buckets (pfx ctBucket acct : String)
    (names : List String) (bs : String → BucketState) :
    (String → BucketState) × List S3Call :=
  match names with
  | [] => (bs, [])
  | b :: rest =>
    let step := access_logging_bucket_step pfx ctBucket acct b (bs b)
    let bs2 := fun x => if x = b then step.fst else bs x
    let tail := run_access_logging_buckets pfx ctBucket acct rest bs2
    (tail.fst, step.snd ++ tail.snd)

/-- The per-account body of the access-logging reconciliation loop:
list the account's buckets, then run the bucket loop; returns the trace
of bucket-level calls issued for that account. -/
def access_logging_for_account (pfx ctBucket : String) (w : AccountS3)
    (acct : String) : List S3Call :=
  (run_access_logging_buckets pfx ctBucket acct (get_s3_bucket_names w)
    w.bucketStates).snd

/-- Embedding of the account loop of `get_access_logging_for_all_buckets`
(`please.py` lines 196-257): one entry per active account, carrying the
trace of bucket-level calls issued for that account. -/
def get_access_logging_for_all_buckets (pfx ctBucket : String)
    (prov : String → AccountS3) (accounts : List Account) :
    List (String × List S3Call) :=
  accounts.map (fun a =>
    (a.id, access_logging_for_account pfx ctBucket (prov a.id) a.id))

/-- The bucket loop of `get_s3_bucket_notifications_for_all_buckets`
(`please.py` lines 284-289) over one account's bucket names. -/
def run_notifications_buckets (pfx acct : String) (names : List String)
    (bs : String → BucketState) : (String → BucketState) × List S3Call :=
  match names with
  | [] => (bs, [])
  | b :: rest =>
    let g := get_s3_bucket_notifications pfx acct b (bs b)
    let bs2 := fun x => if x = b then g.snd.fst else bs x
    let tail := run_notifications_buckets pfx acct rest bs2
    (tail.fst, g.snd.snd ++ tail.snd)

/-- The per-account body of the notification reconciliation loop. -/
def notifications_for_account (pfx : String) (w : AccountS3)
    (acct : String) : List S3Call :=
  (run_notifications_buckets pfx acct (get_s3_bucket_names w)
    w.bucketStates).snd

/-- Embedding of the account loop of
`get_s3_bucket_notifications_for_all_buckets` (`please.py` lines
259-289): one entry per active account, carrying the trace of
bucket-level calls issued for that account. -/
def get_s3_bucket_notifications_for_all_buckets (pfx : String)
    (prov : String → AccountS3) (accounts : List Account) :
    List (String × List S3Call) :=
  accounts.map (fun a =>
    (a.id, notifications_for_account pfx (prov a.id) a.id))

/-- Embedding of the account loop of
`set_alternate_contacts_for_all_accounts` (`please.py` lines 142-169):
one entry per active account, reporting the boolean outcome of
`set_alternate_contacts` for that account. -/
def set_alternate_contacts_for_all_accounts (cfg : AlternateContactsConfig)
    (prov : String → AccountContactsWriteClient)
    (st : String → ContactState) (accounts : List Account) :
    List (String × Bool) :=
  accounts.map (fun a =>
    (a.id, (set_alternate_contacts cfg (prov a.id) (st a.id)).fst))

/-- A contact-write client none of whose calls raises. -/
def goodContactsWriteClient : AccountContactsWriteClient :=
  { sessionErr := none
    writeBilling := WriteResp.succeeded
    writeOperations := WriteResp.succeeded
    writeSecurity := WriteResp.succeeded }

/-- A contact-write client every one of whose calls raises `e`. -/
def raisingContactsWriteClient (e : PyErr) : AccountContactsWriteClient :=
  { sessionErr := none
    writeBilling := WriteResp.raised e
    writeOperations := WriteResp.raised e
    writeSecurity := WriteResp.raised e }

/-- An account S3 surface every one of whose calls raises `e`: the first
call made for such an account, `list_buckets`, raises, and every
per-bucket call would raise as well. -/
def raisingAccountS3 (e : PyErr) : AccountS3 :=
  { listBucketsResp := Except.error e
    bucketStates := fun _ =>
      { loc := Except.error e
        logging := Except.error e
        notif := Except.error e
        putLoggingResp := Except.error e
        putNotifResp := Except.error e } }

/-- Whether a contact read raised an exception other than the not-found
signal. -/
def ContactReadResp.isRaisedRead : ContactReadResp → Bool
  | ContactReadResp.raised _ => true
  | _ => false

/-- The absent-or-present contact value the read of one contact type
yields when it does not raise: a found record is kept, the not-found
signal becomes an absent value. -/
def notFoundToAbsent : ContactReadResp → Option ContactRecord
  | ContactReadResp.found c => some c
  | _ => none

/-- Semantics of one S3 notification filter rule applied to an object
key: a "prefix" rule matches keys starting with its value, a "suffix"
rule keys ending with its value. -/
def ruleMatches (r : FilterRule) (key : String) : Bool :=
  if r.ruleName = "prefix" then strStartsWith key r.ruleValue
  else if r.ruleName = "suffix" then strEndsWith key r.ruleValue
  else true

/-- Concrete fixture: two active accounts, used to instantiate the
partial-failure-isolation theorem. -/
def exAccounts : List Account :=
  [⟨"111111111111", "alpha", "a@example.com", "ACTIVE"⟩,
   ⟨"222222222222", "beta", "b@example.com", "ACTIVE"⟩]

/-- Concrete fixture: a bucket in `eu-west-1` with no access logging and
no notification configuration, whose writes succeed. -/
def exBucketState : BucketState :=
  { loc := Except.ok (some "eu-west-1"), logging := Except.ok none
    notif := Except.ok ⟨[], [], []⟩
    putLoggingResp := Except.ok (), putNotifResp := Except.ok () }

/-- Concrete fixture: an account S3 surface owning one bucket,
`data-bucket`, in the state of `exBucketState`. -/
def exGoodAccountS3 : AccountS3 :=
  { listBucketsResp := Except.ok ["data-bucket"]
    bucketStates := fun _ => exBucketState }

/-- Concrete fixture: contact payloads from the configuration file. -/
def exContactsConfig : AlternateContactsConfig :=
  ⟨⟨"B", "b@x", "1", "CFO"⟩, ⟨"O", "o@x", "2", "COO"⟩,
    ⟨"S", "s@x", "3", "CISO"⟩⟩

/-- Concrete fixture: contact-write provider for which every call made
for account `222222222222` raises and all other accounts succeed. -/
def exProvC : String → AccountContactsWriteClient := fun i =>
  if i = "222222222222" then
    raisingContactsWriteClient (PyErr.clientError "AccessDenied")
  else goodContactsWriteClient

/-- Concrete fixture: S3 provider for which every call made for account
`222222222222` raises and all other accounts behave as
`exGoodAccountS3`. -/
def exProvS : String → AccountS3 := fun i =>
  if i = "222222222222" then
    raisingAccountS3 (PyErr.clientError "AccessDenied")
  else exGoodAccountS3

/-- Helper: when the location read succeeds, `get_s3_bucket_region`
returns the constraint, with the null sentinel defaulted to `us-east-1`. -/
theorem get_s3_bucket_region_ok (s : BucketState) (lc : Option String)
    (h : s.loc = Except.ok lc) :
    get_s3_bucket_region s = lc.getD "us-east-1" := by
  cases lc <;> simp [get_s3_bucket_region, h]

/-- C9: for every bucket for which the provider reports the null
"no location constraint" sentinel, `get_s3_bucket_region` returns the
documented default region string `us-east-1`; for every bucket with a
non-null location constraint it returns that location unchanged. -/
theorem get_s3_bucket_region_normalizes_null_sentinel
    (s t : BucketState) (l : String)
    (hs : s.loc = Except.ok none) (ht : t.loc = Except.ok (some l)) :
    get_s3_bucket_region s = "us-east-1" ∧ get_s3_bucket_region t = l := by
  constructor
  · simp [get_s3_bucket_region, hs]
  · simp [get_s3_bucket_region, ht]

/-- Witness for C9 at concrete bucket states: the null sentinel maps to
`us-east-1` and a concrete `eu-west-1` constraint is returned unchanged. -/
theorem get_s3_bucket_region_normalizes_null_sentinel_witness :
    get_s3_bucket_region
      { loc := Except.ok none, logging := Except.ok none
        notif := Except.ok ⟨[], [], []⟩
        putLoggingResp := Except.ok (), putNotifResp := Except.ok () } =
      "us-east-1" ∧
    get_s3_bucket_region
      { loc := Except.ok (some "eu-west-1"), logging := Except.ok none
        notif := Except.ok ⟨[], [], []⟩
        putLoggingResp := Except.ok (), putNotifResp := Except.ok () } =
      "eu-west-1" :=
  get_s3_bucket_region_normalizes_null_sentinel _ _ "eu-west-1" rfl rfl

/-- C10: the boolean `check_s3_bucket` returns is `true` exactly when the
`head_bucket` probe succeeds; a 404 (bucket absent) and every other client
or unexpected error all collapse to `false`, so the boolean does not
distinguish "bucket absent" from "existence check failed", and the
function is total (never raises). -/
theorem check_s3_bucket_collapses_absent_and_failed :
    (∀ r : Except PyErr Unit,
      (check_s3_bucket r).fst = true ↔ r = Except.ok ()) ∧
    (check_s3_bucket (Except.error (PyErr.clientError "404"))).fst = false ∧
    (check_s3_bucket (Except.error (PyErr.clientError "AccessDenied"))).fst
      = false ∧
    (check_s3_bucket (Except.error (PyErr.otherExc "boom"))).fst = false := by
  refine ⟨?_, rfl, rfl, rfl⟩
  intro r
  cases r with
  | ok u => cases u; simp [check_s3_bucket]
  | error e =>
    cases e with
    | clientError c =>
      simp only [check_s3_bucket]
      split <;> simp
    | otherExc m => simp [check_s3_bucket]

/-- C7: for every account whose session construction succeeds and none of
whose three contact reads raises a non-not-found exception,
`get_alternate_contacts` returns the contacts result in which every
not-found response is mapped to an absent value; the not-set case never
takes the error path. -/
theorem get_alternate_contacts_maps_not_found_to_absent
    (p : AccountContactsClient)
    (hs : p.sessionErr = none)
    (hb : (p.readBilling).isRaisedRead = false)
    (ho : (p.readOperations).isRaisedRead = false)
    (hc : (p.readSecurity).isRaisedRead = false) :
    get_alternate_contacts p =
      GetContactsResult.contacts (notFoundToAbsent p.readBilling)
        (notFoundToAbsent p.readOperations)
        (notFoundToAbsent p.readSecurity) := by
  obtain ⟨se, rb, ro, rc⟩ := p
  simp only at hs hb ho hc
  subst hs
  cases rb <;> cases ro <;> cases rc <;>
    simp_all [get_alternate_contacts, fetch_contact, notFoundToAbsent,
      ContactReadResp.isRaisedRead]

/-- Witness for C7: an account whose billing and operations contacts are
not set and whose security contact is set yields absent values for the
first two and the record for the third. -/
theorem get_alternate_contacts_maps_not_found_to_absent_witness :
    get_alternate_contacts
      { sessionErr := none
        readBilling := ContactReadResp.resourceNotFound
        readOperations := ContactReadResp.resourceNotFound
        readSecurity := ContactReadResp.found ⟨"n", "e", "p", "t"⟩ } =
      GetContactsResult.contacts none none (some ⟨"n", "e", "p", "t"⟩) :=
  get_alternate_contacts_maps_not_found_to_absent _ rfl rfl rfl rfl

/-- C3: evaluation of `list_active_accounts` at the three provider
behaviors that decide the claim.  When session or client construction
itself fails the function does not fail closed: the first except clause's
reference to the still-unbound `client` local raises an
`UnboundLocalError` that escapes uncaught, contradicting the claim (and
the function's own catch-all handler, whose evident intent is to return
the empty list on any error).  A pagination error raised after the client
exists is caught and yields the empty list, and a successful listing is
filtered to exactly the `ACTIVE` accounts in provider page order. -/
theorem list_active_accounts_construction_failure_escapes :
    list_active_accounts
      { sessionAndClientOk := false, pages := Except.ok [] } =
      PyOutcome.uncaught "UnboundLocalError" ∧
    list_active_accounts
      { sessionAndClientOk := true
        pages := Except.error (PyErr.clientError "Throttling") } =
      PyOutcome.returned [] ∧
    list_active_accounts
      { sessionAndClientOk := true
        pages := Except.ok
          [[⟨"111111111111", "alpha", "a@example.com", "ACTIVE"⟩,
            ⟨"222222222222", "beta", "b@example.com", "SUSPENDED"⟩],
           [⟨"333333333333", "gamma", "c@example.com", "ACTIVE"⟩]] } =
      PyOutcome.returned
        [⟨"111111111111", "alpha", "a@example.com", "ACTIVE"⟩,
         ⟨"333333333333", "gamma", "c@example.com", "ACTIVE"⟩] := by
  refine ⟨rfl, rfl, ?_⟩
  simp [list_active_accounts]

/-- C4: a bucket whose current notification configuration has any of the
topic, queue or function subscription lists non-empty is classified as
configured: the reconciliation issues no write, leaves the provider state
unchanged, and therefore a second run against the resulting state changes
nothing either. -/
theorem notification_reconciliation_idempotent
    (pfx acct bucket : String) (s : BucketState)
    (c : NotificationConfiguration)
    (hn : s.notif = Except.ok c) (hc : notifConfigured c = true) :
    get_s3_bucket_notifications pfx acct bucket s =
      ("Notifications enabled", s, [S3Call.getBucketNotification bucket]) ∧
    (get_s3_bucket_notifications pfx acct bucket
        (get_s3_bucket_notifications pfx acct bucket s).snd.fst).snd.fst =
      (get_s3_bucket_notifications pfx acct bucket s).snd.fst := by
  have h1 : get_s3_bucket_notifications pfx acct bucket s =
      ("Notifications enabled", s, [S3Call.getBucketNotification bucket]) := by
    simp [get_s3_bucket_notifications, hn, hc]
  refine ⟨h1, ?_⟩
  simp [h1]

/-- Witness for C4 at a bucket with one existing (unrelated) queue
subscription: the run reads, classifies the bucket as configured, issues
no write and leaves the subscription set unchanged. -/
theorem notification_reconciliation_idempotent_witness :
    get_s3_bucket_notifications "sec-logs" "111111111111" "data-bucket"
      { loc := Except.ok (some "eu-west-1"), logging := Except.ok none
        notif := Except.ok ⟨[], [⟨"arn:aws:sqs:eu-west-1:111111111111:other",
          ["s3:ObjectCreated:*"], []⟩], []⟩
        putLoggingResp := Except.ok (), putNotifResp := Except.ok () } =
      ("Notifications enabled",
       { loc := Except.ok (some "eu-west-1"), logging := Except.ok none
         notif := Except.ok ⟨[], [⟨"arn:aws:sqs:eu-west-1:111111111111:other",
           ["s3:ObjectCreated:*"], []⟩], []⟩
         putLoggingResp := Except.ok (), putNotifResp := Except.ok () },
       [S3Call.getBucketNotification "data-bucket"]) := by
  have h := notification_reconciliation_idempotent "sec-logs" "111111111111"
    "data-bucket"
    { loc := Except.ok (some "eu-west-1"), logging := Except.ok none
      notif := Except.ok ⟨[], [⟨"arn:aws:sqs:eu-west-1:111111111111:other",
        ["s3:ObjectCreated:*"], []⟩], []⟩
      putLoggingResp := Except.ok (), putNotifResp := Except.ok () }
    ⟨[], [⟨"arn:aws:sqs:eu-west-1:111111111111:other",
      ["s3:ObjectCreated:*"], []⟩], []⟩ rfl rfl
  exact h.1

/-- C1: a bucket whose name equals the configured control-tower log
bucket, or equals the conventional logging-target name built from its own
account and its own resolved region, is skipped by the access-logging
reconciliation: the per-bucket step leaves the provider state unchanged
and issues no logging read and no logging write for it. -/
theorem access_logging_skips_self_target_and_controltower
    (pfx ctBucket acct bucket : String) (s : BucketState) (lc : Option String)
    (h : bucket = ctBucket ∨
      (s.loc = Except.ok lc ∧
        bucket = conventionalName pfx acct (lc.getD "us-east-1"))) :
    (access_logging_bucket_step pfx ctBucket acct bucket s).fst = s ∧
    ((access_logging_bucket_step pfx ctBucket acct bucket s).snd.all
      (fun call => !call.isLoggingRead && !call.isLoggingWrite)) = true := by
  rcases h with h | ⟨hloc, hb⟩
  · simp [access_logging_bucket_step, h, S3Call.isLoggingRead,
      S3Call.isLoggingWrite]
  · have hr : get_s3_bucket_region s = lc.getD "us-east-1" :=
      get_s3_bucket_region_ok s lc hloc
    by_cases hct : bucket = ctBucket
    · simp [access_logging_bucket_step, hct, S3Call.isLoggingRead,
        S3Call.isLoggingWrite]
    · simp [access_logging_bucket_step, hct, hr, hb, S3Call.isLoggingRead,
        S3Call.isLoggingWrite]

/-- Witness for C1 at the spec's example: prefix `sec-logs`, account
`111111111111`, bucket `sec-logs-111111111111-us-east-1` whose location
read returns the null sentinel (region `us-east-1`): the step changes
nothing and issues no logging read or write. -/
theorem access_logging_skips_self_target_and_controltower_witness :
    (access_logging_bucket_step "sec-logs" "aws-controltower-logs"
        "111111111111" "sec-logs-111111111111-us-east-1"
        { loc := Except.ok none, logging := Except.ok none
          notif := Except.ok ⟨[], [], []⟩
          putLoggingResp := Except.ok (), putNotifResp := Except.ok () }).fst =
      { loc := Except.ok none, logging := Except.ok none
        notif := Except.ok ⟨[], [], []⟩
        putLoggingResp := Except.ok (), putNotifResp := Except.ok () } ∧
    ((access_logging_bucket_step "sec-logs" "aws-controltower-logs"
        "111111111111" "sec-logs-111111111111-us-east-1"
        { loc := Except.ok none, logging := Except.ok none
          notif := Except.ok ⟨[], [], []⟩
          putLoggingResp := Except.ok (), putNotifResp := Except.ok () }).snd.all
      (fun call => !call.isLoggingRead && !call.isLoggingWrite)) = true :=
  access_logging_skips_self_target_and_controltower "sec-logs"
    "aws-controltower-logs" "111111111111" "sec-logs-111111111111-us-east-1"
    _ none (Or.inr ⟨rfl, by decide⟩)

/-- C5: a bucket that is neither the control-tower log bucket nor its own
conventional logging target, whose location read succeeds and whose
logging configuration is absent, is remediated: the step issues a
`put_bucket_logging` carrying the conventional target built from the
bucket's own resolved region, an empty target object-key prefix and an
`EventTime` partitioned key layout, and records logging as enabled toward
that target. -/
theorem access_logging_remediation_target
    (pfx ctBucket acct bucket : String) (s : BucketState) (lc : Option String)
    (hloc : s.loc = Except.ok lc)
    (hre : strStartsWith (lc.getD "us-east-1") "Error" = false)
    (hct : bucket ≠ ctBucket)
    (hself : bucket ≠ conventionalName pfx acct (lc.getD "us-east-1"))
    (hlog : s.logging = Except.ok none)
    (hput : s.putLoggingResp = Except.ok ()) :
    access_logging_bucket_step pfx ctBucket acct bucket s =
      ({ s with logging :=
          Except.ok (some (conventionalName pfx acct (lc.getD "us-east-1"))) },
       [S3Call.getBucketLocation bucket,
        S3Call.getBucketLocation bucket, S3Call.getBucketLogging bucket,
        S3Call.getBucketLocation bucket,
        S3Call.putBucketLogging bucket
          { targetBucket := conventionalName pfx acct (lc.getD "us-east-1")
            targetPfx := ""
            partitionDateSource := "EventTime" }]) := by
  have hr : get_s3_bucket_region s = lc.getD "us-east-1" :=
    get_s3_bucket_region_ok s lc hloc
  simp [access_logging_bucket_step, hct, hr, hself, get_s3_access_logging,
    hloc, hlog, set_s3_access_logging, hre, hput]

/-- Witness for C5 at the spec's example: bucket `data-bucket` in region
`eu-west-1` with logging disabled is remediated toward the target
`sec-logs-111111111111-eu-west-1` with an empty target object-key prefix
and `EventTime` partitioned keys, even though the account's default
region differs. -/
theorem access_logging_remediation_target_witness :
    access_logging_bucket_step "sec-logs" "aws-controltower-logs"
        "111111111111" "data-bucket"
        { loc := Except.ok (some "eu-west-1"), logging := Except.ok none
          notif := Except.ok ⟨[], [], []⟩
          putLoggingResp := Except.ok (), putNotifResp := Except.ok () } =
      ({ loc := Except.ok (some "eu-west-1")
         logging := Except.ok (some "sec-logs-111111111111-eu-west-1")
         notif := Except.ok ⟨[], [], []⟩
         putLoggingResp := Except.ok (), putNotifResp := Except.ok () },
       [S3Call.getBucketLocation "data-bucket",
        S3Call.getBucketLocation "data-bucket",
        S3Call.getBucketLogging "data-bucket",
        S3Call.getBucketLocation "data-bucket",
        S3Call.putBucketLogging "data-bucket"
          { targetBucket := "sec-logs-111111111111-eu-west-1"
            targetPfx := ""
            partitionDateSource := "EventTime" }]) :=
  access_logging_remediation_target "sec-logs" "aws-controltower-logs"
    "111111111111" "data-bucket"
    { loc := Except.ok (some "eu-west-1"), logging := Except.ok none
      notif := Except.ok ⟨[], [], []⟩
      putLoggingResp := Except.ok (), putNotifResp := Except.ok () }
    (some "eu-west-1") rfl (by decide) (by decide) (by decide) rfl rfl

/-- C6: for a bucket with no notification configuration whose location
read succeeds and whose write succeeds, the remediation writes exactly one
queue subscription, targeting the conventional per-account queue in the
bucket's own region, for exactly the event kinds
`s3:ReducedRedundancyLostObject` and
`s3:Replication:OperationFailedReplication`; and its filter rules accept
every object key, so no prefix or suffix filtering is applied to the
subscription. -/
theorem notification_remediation_single_queue_subscription
    (pfx acct bucket : String) (s : BucketState) (lc : Option String)
    (c : NotificationConfiguration)
    (hn : s.notif = Except.ok c) (hc : notifConfigured c = false)
    (hloc : s.loc = Except.ok lc)
    (hre : strStartsWith (lc.getD "us-east-1") "Error" = false)
    (hput : s.putNotifResp = Except.ok ()) :
    get_s3_bucket_notifications pfx acct bucket s =
      ("Notifications Not Enabled",
       { s with notif := Except.ok (writtenNotificationCfg pfx acct (lc.getD "us-east-1")) },
       [S3Call.getBucketNotification bucket,
        S3Call.getBucketLocation bucket,
        S3Call.putBucketNotification bucket
          (writtenNotificationCfg pfx acct (lc.getD "us-east-1"))]) ∧
    (writtenNotificationCfg pfx acct (lc.getD "us-east-1")).queueConfigurations =
      [{ arn := sqsQueueArn (lc.getD "us-east-1") acct
           (conventionalName pfx acct (lc.getD "us-east-1"))
         events := ["s3:ReducedRedundancyLostObject",
                    "s3:Replication:OperationFailedReplication"]
         filterRules := [⟨"prefix", ""⟩, ⟨"suffix", ""⟩] }] ∧
    (writtenNotificationCfg pfx acct (lc.getD "us-east-1")).topicConfigurations
      = [] ∧
    (writtenNotificationCfg pfx acct
      (lc.getD "us-east-1")).lambdaFunctionConfigurations = [] ∧
    ∀ key : String,
      ([(⟨"prefix", ""⟩ : FilterRule), ⟨"suffix", ""⟩].all
        (fun r => ruleMatches r key)) = true := by
  have hr : get_s3_bucket_region s = lc.getD "us-east-1" :=
    get_s3_bucket_region_ok s lc hloc
  refine ⟨?_, rfl, rfl, rfl, ?_⟩
  · simp [get_s3_bucket_notifications, hn, hc, set_s3_bucket_notifications,
      hr, hre, hput]
  · intro key
    simp [ruleMatches, strStartsWith, strEndsWith, List.isPrefixOf,
      List.isSuffixOf]

/-- Witness for C6: a bucket in `eu-west-1` with an empty notification
configuration receives exactly one queue subscription targeting
`arn:aws:sqs:eu-west-1:111111111111:sec-logs-111111111111-eu-west-1` for
the two event kinds, and the written filter accepts the concrete key
`some/object.txt`. -/
theorem notification_remediation_single_queue_subscription_witness :
    get_s3_bucket_notifications "sec-logs" "111111111111" "data-bucket"
      { loc := Except.ok (some "eu-west-1"), logging := Except.ok none
        notif := Except.ok ⟨[], [], []⟩
        putLoggingResp := Except.ok (), putNotifResp := Except.ok () } =
      ("Notifications Not Enabled",
       { loc := Except.ok (some "eu-west-1"), logging := Except.ok none
         notif := Except.ok
           (writtenNotificationCfg "sec-logs" "111111111111" "eu-west-1")
         putLoggingResp := Except.ok (), putNotifResp := Except.ok () },
       [S3Call.getBucketNotification "data-bucket",
        S3Call.getBucketLocation "data-bucket",
        S3Call.putBucketNotification "data-bucket"
          (writtenNotificationCfg "sec-logs" "111111111111" "eu-west-1")]) ∧
    (writtenNotificationCfg "sec-logs" "111111111111"
        "eu-west-1").queueConfigurations =
      [{ arn := "arn:aws:sqs:eu-west-1:111111111111:sec-logs-111111111111-eu-west-1"
         events := ["s3:ReducedRedundancyLostObject",
                    "s3:Replication:OperationFailedReplication"]
         filterRules := [⟨"prefix", ""⟩, ⟨"suffix", ""⟩] }] ∧
    ([(⟨"prefix", ""⟩ : FilterRule), ⟨"suffix", ""⟩].all
      (fun r => ruleMatches r "some/object.txt")) = true := by
  have h := notification_remediation_single_queue_subscription "sec-logs"
    "111111111111" "data-bucket"
    { loc := Except.ok (some "eu-west-1"), logging := Except.ok none
      notif := Except.ok ⟨[], [], []⟩
      putLoggingResp := Except.ok (), putNotifResp := Except.ok () }
    (some "eu-west-1") ⟨[], [], []⟩ rfl rfl rfl (by decide) rfl
  exact ⟨h.1, by decide, h.2.2.2.2 "some/object.txt"⟩

/-- C8: `set_alternate_contacts` writes the three contact types
unconditionally (regardless of the current record set) in the fixed order
billing, operations, security; when one write fails after earlier writes
succeeded, the earlier writes stay applied, the later types are not
attempted, and the operation returns failure, leaving a partially-updated
record. -/
theorem set_alternate_contacts_partial_failure
    (cfg : AlternateContactsConfig) (p q : AccountContactsWriteClient)
    (s t u : ContactState) (e1 e2 : PyErr)
    (hp0 : p.sessionErr = none)
    (hp1 : p.writeBilling = WriteResp.succeeded)
    (hp2 : p.writeOperations = WriteResp.succeeded)
    (hp3 : p.writeSecurity = WriteResp.raised e1)
    (hq0 : q.sessionErr = none)
    (hq1 : q.writeBilling = WriteResp.succeeded)
    (hq2 : q.writeOperations = WriteResp.raised e2) :
    set_alternate_contacts cfg goodContactsWriteClient u =
      (true,
       { billing := some cfg.billingContact
         operations := some cfg.operationsContact
         security := some cfg.securityContact },
       [ContactWriteCall.putBilling cfg.billingContact,
        ContactWriteCall.putOperations cfg.operationsContact,
        ContactWriteCall.putSecurity cfg.securityContact]) ∧
    set_alternate_contacts cfg p s =
      (false,
       { s with billing := some cfg.billingContact
                operations := some cfg.operationsContact },
       [ContactWriteCall.putBilling cfg.billingContact,
        ContactWriteCall.putOperations cfg.operationsContact,
        ContactWriteCall.putSecurity cfg.securityContact]) ∧
    set_alternate_contacts cfg q t =
      (false,
       { t with billing := some cfg.billingContact },
       [ContactWriteCall.putBilling cfg.billingContact,
        ContactWriteCall.putOperations cfg.operationsContact]) := by
  refine ⟨rfl, ?_, ?_⟩
  · simp [set_alternate_contacts, hp0, hp1, hp2, hp3]
  · simp [set_alternate_contacts, hq0, hq1, hq2]

/-- Witness for C8: with concrete payloads and an empty initial record
set, a security-write failure leaves billing and operations set and
returns failure, an operations-write failure leaves only billing set, and
a fully successful run sets all three in order. -/
theorem set_alternate_contacts_partial_failure_witness :
    set_alternate_contacts
      ⟨⟨"B", "b@x", "1", "CFO"⟩, ⟨"O", "o@x", "2", "COO"⟩,
        ⟨"S", "s@x", "3", "CISO"⟩⟩
      goodContactsWriteClient ⟨none, none, none⟩ =
      (true, ⟨some ⟨"B", "b@x", "1", "CFO"⟩, some ⟨"O", "o@x", "2", "COO"⟩,
        some ⟨"S", "s@x", "3", "CISO"⟩⟩,
       [ContactWriteCall.putBilling ⟨"B", "b@x", "1", "CFO"⟩,
        ContactWriteCall.putOperations ⟨"O", "o@x", "2", "COO"⟩,
        ContactWriteCall.putSecurity ⟨"S", "s@x", "3", "CISO"⟩]) ∧
    set_alternate_contacts
      ⟨⟨"B", "b@x", "1", "CFO"⟩, ⟨"O", "o@x", "2", "COO"⟩,
        ⟨"S", "s@x", "3", "CISO"⟩⟩
      { sessionErr := none, writeBilling := WriteResp.succeeded
        writeOperations := WriteResp.succeeded
        writeSecurity := WriteResp.raised (PyErr.clientError "AccessDenied") }
      ⟨none, none, none⟩ =
      (false, ⟨some ⟨"B", "b@x", "1", "CFO"⟩, some ⟨"O", "o@x", "2", "COO"⟩,
        none⟩,
       [ContactWriteCall.putBilling ⟨"B", "b@x", "1", "CFO"⟩,
        ContactWriteCall.putOperations ⟨"O", "o@x", "2", "COO"⟩,
        ContactWriteCall.putSecurity ⟨"S", "s@x", "3", "CISO"⟩]) ∧
    set_alternate_contacts
      ⟨⟨"B", "b@x", "1", "CFO"⟩, ⟨"O", "o@x", "2", "COO"⟩,
        ⟨"S", "s@x", "3", "CISO"⟩⟩
      { sessionErr := none, writeBilling := WriteResp.succeeded
        writeOperations := WriteResp.raised (PyErr.clientError "AccessDenied")
        writeSecurity := WriteResp.succeeded }
      ⟨none, none, none⟩ =
      (false, ⟨some ⟨"B", "b@x", "1", "CFO"⟩, none, none⟩,
       [ContactWriteCall.putBilling ⟨"B", "b@x", "1", "CFO"⟩,
        ContactWriteCall.putOperations ⟨"O", "o@x", "2", "COO"⟩]) :=
  set_alternate_contacts_partial_failure
    ⟨⟨"B", "b@x", "1", "CFO"⟩, ⟨"O", "o@x", "2", "COO"⟩,
      ⟨"S", "s@x", "3", "CISO"⟩⟩
    { sessionErr := none, writeBilling := WriteResp.succeeded
      writeOperations := WriteResp.succeeded
      writeSecurity := WriteResp.raised (PyErr.clientError "AccessDenied") }
    { sessionErr := none, writeBilling := WriteResp.succeeded
      writeOperations := WriteResp.raised (PyErr.clientError "AccessDenied")
      writeSecurity := WriteResp.succeeded }
    ⟨none, none, none⟩ ⟨none, none, none⟩ ⟨none, none, none⟩
    (PyErr.clientError "AccessDenied") (PyErr.clientError "AccessDenied")
    rfl rfl rfl rfl rfl rfl rfl

/-- C2: partial-failure isolation of the three per-account reconciliation
loops.  Given any account list and a provider for which every call made
for account `k` raises while the other accounts behave as some unaffected
base behavior, each loop still produces exactly one entry per account, in
order: accounts other than `k` get exactly the outcome of their unaffected
behavior (the contact loop reports them successful; the bucket loops issue
exactly the calls of the unaffected run), and account `k` contributes a
failed (respectively empty) entry instead of aborting the loop — every
resource-level exception is caught inside the per-account operation. -/
theorem per_account_loops_isolate_failures
    (cfg : AlternateContactsConfig) (accounts : List Account) (k : String)
    (e1 e2 e3 : PyErr) (pfx ctBucket : String)
    (provC : String → AccountContactsWriteClient)
    (stC : String → ContactState)
    (provS provN base baseN : String → AccountS3)
    (hCgood : ∀ a ∈ accounts, a.id ≠ k →
      provC a.id = goodContactsWriteClient)
    (hCbad : provC k = raisingContactsWriteClient e1)
    (hSgood : ∀ a ∈ accounts, a.id ≠ k → provS a.id = base a.id)
    (hSbad : provS k = raisingAccountS3 e2)
    (hNgood : ∀ a ∈ accounts, a.id ≠ k → provN a.id = baseN a.id)
    (hNbad : provN k = raisingAccountS3 e3) :
    set_alternate_contacts_for_all_accounts cfg provC stC accounts =
      accounts.map (fun a => (a.id, if a.id = k then false else true)) ∧
    get_access_logging_for_all_buckets pfx ctBucket provS accounts =
      accounts.map (fun a => (a.id,
        if a.id = k then []
        else access_logging_for_account pfx ctBucket (base a.id) a.id)) ∧
    get_s3_bucket_notifications_for_all_buckets pfx provN accounts =
      accounts.map (fun a => (a.id,
        if a.id = k then []
        else notifications_for_account pfx (baseN a.id) a.id)) := by
  refine ⟨?_, ?_, ?_⟩
  · unfold set_alternate_contacts_for_all_accounts
    apply List.map_congr_left
    intro a ha
    by_cases h : a.id = k
    · rw [h, hCbad]
      simp [h, set_alternate_contacts, raisingContactsWriteClient]
    · rw [hCgood a ha h]
      simp [h, set_alternate_contacts, goodContactsWriteClient]
  · unfold get_access_logging_for_all_buckets
    apply List.map_congr_left
    intro a ha
    by_cases h : a.id = k
    · rw [h, hSbad]
      simp [h, access_logging_for_account, raisingAccountS3,
        get_s3_bucket_names, run_access_logging_buckets]
    · rw [hSgood a ha h]
      simp [h]
  · unfold get_s3_bucket_notifications_for_all_buckets
    apply List.map_congr_left
    intro a ha
    by_cases h : a.id = k
    · rw [h, hNbad]
      simp [h, notifications_for_account, raisingAccountS3,
        get_s3_bucket_names, run_notifications_buckets]
    · rw [hNgood a ha h]
      simp [h]

/-- Witness for C2: two active accounts, every provider call for account
`222222222222` raising; account `111111111111` is still reported as a
contact-setting success and its one bucket still receives the full
access-logging remediation and notification remediation call sequences,
while the raising account contributes a failed (respectively empty) entry
and the loops run to the end. -/
theorem per_account_loops_isolate_failures_witness :
    set_alternate_contacts_for_all_accounts exContactsConfig exProvC
        (fun _ => ⟨none, none, none⟩) exAccounts =
      [("111111111111", true), ("222222222222", false)] ∧
    get_access_logging_for_all_buckets "sec-logs" "aws-controltower-logs"
        exProvS exAccounts =
      [("111111111111",
        [S3Call.getBucketLocation "data-bucket",
         S3Call.getBucketLocation "data-bucket",
         S3Call.getBucketLogging "data-bucket",
         S3Call.getBucketLocation "data-bucket",
         S3Call.putBucketLogging "data-bucket"
           ⟨"sec-logs-111111111111-eu-west-1", "", "EventTime"⟩]),
       ("222222222222", [])] ∧
    get_s3_bucket_notifications_for_all_buckets "sec-logs" exProvS
        exAccounts =
      [("111111111111",
        [S3Call.getBucketNotification "data-bucket",
         S3Call.getBucketLocation "data-bucket",
         S3Call.putBucketNotification "data-bucket"
           (writtenNotificationCfg "sec-logs" "111111111111" "eu-west-1")]),
       ("222222222222", [])] := by
  have hCg : ∀ a ∈ exAccounts, a.id ≠ "222222222222" →
      exProvC a.id = goodContactsWriteClient := by decide
  have hCb : exProvC "222222222222" =
      raisingContactsWriteClient (PyErr.clientError "AccessDenied") := by
    simp [exProvC]
  have hSg : ∀ a ∈ exAccounts, a.id ≠ "222222222222" →
      exProvS a.id = (fun _ => exGoodAccountS3) a.id := by
    intro a _ hne
    simp [exProvS, hne]
  have hSb : exProvS "222222222222" =
      raisingAccountS3 (PyErr.clientError "AccessDenied") := by
    simp [exProvS]
  have h := per_account_loops_isolate_failures exContactsConfig exAccounts
    "222222222222" (PyErr.clientError "AccessDenied")
    (PyErr.clientError "AccessDenied") (PyErr.clientError "AccessDenied")
    "sec-logs" "aws-controltower-logs" exProvC (fun _ => ⟨none, none, none⟩)
    exProvS exProvS (fun _ => exGoodAccountS3) (fun _ => exGoodAccountS3)
    hCg hCb hSg hSb hSg hSb
  refine ⟨h.1.trans (by decide), h.2.1.trans (by decide),
    h.2.2.trans (by decide)⟩
